import Mathlib

/-!
Verification of the material-request tracker in `src/app_new.py`
(HPNT-ENG-Manager-V2).

The single table `material_requests` is modelled as a list of rows plus
the SQLite `sqlite_sequence` counter for the table.  Each Flask handler
that the claims refer to is embedded as a pure function from the database
state (and, where the handler touches the image directory, the list of
files in that directory) to the new state together with the HTTP outcome.
The `DATABASE_URL`-driven backend switch (`USE_POSTGRES`) is an explicit
boolean parameter.
-/

namespace HPNT

/-! ### Storage adapter (`_PgCursorAdapter`, app_new.py lines 92-105) -/

/-- Embedding of `_qmark_pattern.sub('%s', query)` where
`_qmark_pattern = re.compile(r"\?")`: the regex engine scans the
characters left to right and replaces each match of the single-character
pattern with the replacement text. -/
def qmarkSub : List Char → List Char
  | [] => []
  | c :: cs => if c = '?' then '%' :: 's' :: qmarkSub cs else c :: qmarkSub cs

/-- Modelled from the spec: "textually replace every `?` placeholder with
the backend's positional-parameter token" — each `'?'` character becomes
the two characters `%s`, every other character is kept. -/
def replaceEveryQmark (query : String) : String :=
  String.mk (query.data.flatMap fun c => if c = '?' then ['%', 's'] else [c])

/-- Embedding of `_PgCursorAdapter.execute(query, params)`: returns the
query string and parameter list that are actually passed on to the
underlying psycopg2 cursor. -/
def pgCursorExecute {α : Type} (query : String) (params : Option (List α)) :
    String × Option (List α) :=
  match params with
  | none => (query, none)
  | some ps => (String.mk (qmarkSub query.data), some ps)

/-! ### Data model (table `material_requests`, schema at lines 356-370) -/

/-- One row of `material_requests`, fields in the column order used by the
explicit SELECT at line 2550. -/
structure Row where
  id : Nat
  item_name : String
  quantity : Int
  specifications : String
  reason : String
  urgency : String
  request_date : String
  vendor : String
  status : String
  images : Option String
  created_at : String
  deriving Repr, DecidableEq

/-- Every field of a row except its primary key. -/
def stripId (r : Row) :
    String × Int × String × String × String × String × String × String ×
      Option String × String :=
  (r.item_name, r.quantity, r.specifications, r.reason, r.urgency,
   r.request_date, r.vendor, r.status, r.images, r.created_at)

/-- The table contents (in physical rowid order) together with the
`sqlite_sequence` counter for `material_requests`. -/
structure DB where
  rows : List Row
  seq : Nat
  deriving Repr, DecidableEq

/-- Largest id present in the table (0 when empty). -/
def maxId (rows : List Row) : Nat :=
  rows.foldr (fun r m => max r.id m) 0

/-- The rowid SQLite assigns to an INSERT without an explicit id on an
`INTEGER PRIMARY KEY AUTOINCREMENT` table: one more than the larger of the
`sqlite_sequence` entry and the largest rowid in the table.  (On the
PostgreSQL backend `SERIAL` yields `seq + 1`, which agrees because no code
path there ever inserts an explicit id, so all ids stay at most `seq`.) -/
def nextId (db : DB) : Nat :=
  max db.seq (maxId db.rows) + 1

/-- A SQL INSERT that omits the id column; returns `cursor.lastrowid`. -/
def insertRow (db : DB) (item_name : String) (quantity : Int)
    (specifications reason urgency request_date vendor status : String)
    (images : Option String) (created_at : String) : DB × Nat :=
  let r : Row :=
    { id := nextId db, item_name := item_name, quantity := quantity,
      specifications := specifications, reason := reason, urgency := urgency,
      request_date := request_date, vendor := vendor, status := status,
      images := images, created_at := created_at }
  ({ rows := db.rows ++ [r], seq := nextId db }, nextId db)

/-- Python truthiness of an optional TEXT column value, as in
`result[0] if result and result[0] else None`: NULL and the empty string
are both falsy. -/
def truthy : Option String → Option String
  | none => none
  | some s => if s = "" then none else some s

/-! ### `add_page` POST branch (lines 2579-2668) -/

inductive AddResult
  | redirectRequests
  | formError (msg : String)
  deriving Repr, DecidableEq

/-- Embedding of the POST branch of `add_page`.  The data-URL image
handling (lines 2602-2635) only produces an optional saved filename and
never aborts the request, so it is abstracted into the `image_filename`
argument; `today` stands for `datetime.now().strftime('%Y-%m-%d')` and
`now` for the `created_at` default timestamp. -/
def add_page (db : DB) (item_name : String) (quantity : Int)
    (specifications reason urgency vendor : String)
    (image_filename : Option String) (today now : String) : DB × AddResult :=
  if item_name = "" then
    (db, AddResult.formError "자재명은 필수 입력 항목입니다.")
  else if quantity ≤ 0 then
    (db, AddResult.formError "수량은 1 이상이어야 합니다.")
  else
    ((insertRow db item_name quantity specifications reason urgency today
        vendor "pending" image_filename now).1,
     AddResult.redirectRequests)

/-! ### `admin_edit_material_info` (lines 2688-2727) -/

inductive EditResult
  | ok
  | badRequest (msg : String)
  | notFound (msg : String)
  deriving Repr, DecidableEq

/-- Embedding of `admin_edit_material_info`.  When `cursor.rowcount` of the
UPDATE is 0 the connection is closed without commit, so the table is left
unchanged and 404 is returned. -/
def admin_edit_material_info (db : DB) (request_id : Nat) (item_name : String)
    (quantity : Int) (specifications reason : String) : DB × EditResult :=
  if item_name = "" then
    (db, EditResult.badRequest "자재명은 필수 입력 항목입니다.")
  else if quantity < 1 then
    (db, EditResult.badRequest "수량은 1 이상이어야 합니다.")
  else if db.rows.countP (fun r => r.id == request_id) = 0 then
    (db, EditResult.notFound "요청을 찾을 수 없습니다.")
  else
    ({ db with rows := db.rows.map fun r =>
        if r.id == request_id then
          { r with item_name := item_name, quantity := quantity,
                   specifications := specifications, reason := reason }
        else r },
     EditResult.ok)

/-! ### `admin_update_request` (lines 2729-2760) -/

inductive UpdateResult
  | ok
  | notFound (msg : String)
  deriving Repr, DecidableEq

/-- Embedding of `admin_update_request`: unconditional UPDATE of `vendor`
and `status` on the matching row, 404 when `cursor.rowcount` is 0 (then
the connection is closed without commit). -/
def admin_update_request (db : DB) (request_id : Nat) (vendor status : String) :
    DB × UpdateResult :=
  if db.rows.countP (fun r => r.id == request_id) = 0 then
    (db, UpdateResult.notFound "요청을 찾을 수 없습니다.")
  else
    ({ db with rows := db.rows.map fun r =>
        if r.id == request_id then { r with vendor := vendor, status := status }
        else r },
     UpdateResult.ok)

/-! ### `admin_copy_request` (lines 2914-2952) -/

inductive CopyResult
  | ok (new_id : Nat)
  | notFound (msg : String)
  deriving Repr, DecidableEq

/-- Embedding of `admin_copy_request`.  The handler performs no filesystem
operation at all, so the image directory `files` is passed through
unchanged; the copied row reuses the source row's `images` filename. -/
def admin_copy_request (db : DB) (files : List String) (request_id : Nat)
    (today now : String) : DB × List String × CopyResult :=
  match db.rows.find? (fun r => r.id == request_id) with
  | none => (db, files, CopyResult.notFound "복사할 요청을 찾을 수 없습니다.")
  | some src =>
    match insertRow db src.item_name src.quantity src.specifications
        src.reason src.urgency today "" "pending" src.images now with
    | (db1, new_id) => (db1, files, CopyResult.ok new_id)

/-! ### `reindex_material_request_ids` (lines 2762-2812) -/

/-- Reinsertion loop of `reindex_material_request_ids`: `for i, row in
enumerate(all_data, 1)` inserts each saved row back with explicit id `i`. -/
def renumberFrom : Nat → List Row → List Row
  | _, [] => []
  | k, r :: rs => { r with id := k } :: renumberFrom (k + 1) rs

/-- Row ordering used by `ORDER BY id`. -/
def idLe (a b : Row) : Prop := a.id ≤ b.id

instance : DecidableRel idLe := fun a b => Nat.decLe a.id b.id

instance : IsTotal Row idLe := ⟨fun a b => Nat.le_total a.id b.id⟩

instance : IsTrans Row idLe := ⟨fun _ _ _ h1 h2 => Nat.le_trans h1 h2⟩

/-- Embedding of `reindex_material_request_ids`: skipped entirely when
`USE_POSTGRES`; otherwise all rows are read `ORDER BY id`, the table is
emptied, the rows are reinserted with ids 1..N, and the `sqlite_sequence`
entry is rewritten to N (to 0 when no rows remain). -/
def reindex_material_request_ids (usePostgres : Bool) (db : DB) : DB :=
  if usePostgres then db
  else if (List.insertionSort idLe db.rows).isEmpty then
    { rows := [], seq := 0 }
  else
    { rows := renumberFrom 1 (List.insertionSort idLe db.rows),
      seq := (List.insertionSort idLe db.rows).length }

/-- The row that `admin_copy_request` inserts when copying `src`: every
descriptive field and the `images` filename come from the source row,
`status` is forced to pending, `vendor` to the empty string and
`request_date` to today; the fresh id is the auto-assigned one. -/
def copiedRow (db : DB) (src : Row) (today now : String) : Row :=
  { id := nextId db, item_name := src.item_name, quantity := src.quantity,
    specifications := src.specifications, reason := src.reason,
    urgency := src.urgency, request_date := today, vendor := "",
    status := "pending", images := src.images, created_at := now }

/-! ### `admin_delete_request` (lines 2954-3002) -/

inductive DeleteResult
  | ok
  | notFound (msg : String)
  deriving Repr, DecidableEq

/-- Effect of `os.remove(path)` guarded by `os.path.exists(path)` on the
image directory listing, for an optional filename. -/
def removeImageFile (files : List String) : Option String → List String
  | none => files
  | some fn => files.filter (fun f => f != fn)

/-- Embedding of `admin_delete_request`: looks up the row's `images` value
(with Python truthiness), runs `DELETE ... WHERE id = ?`, returns 404 when
`cursor.rowcount` is 0, otherwise commits, reindexes ids unless
`USE_POSTGRES`, and finally removes the row's image file from disk. -/
def admin_delete_request (usePostgres : Bool) (db : DB) (files : List String)
    (request_id : Nat) : DB × List String × DeleteResult :=
  if db.rows.countP (fun r => r.id == request_id) = 0 then
    (db, files, DeleteResult.notFound "요청을 찾을 수 없습니다.")
  else
    let db1 : DB := { rows := db.rows.filter (fun r => r.id != request_id),
                      seq := db.seq }
    ((if usePostgres then db1 else reindex_material_request_ids usePostgres db1),
     removeImageFile files
       (truthy ((db.rows.find? (fun r => r.id == request_id)).bind Row.images)),
     DeleteResult.ok)

/-! ### `admin_edit_image` POST branch (lines 2815-2873) -/

/-- A multipart file part as the handler sees it: `file.filename`,
its size in bytes (`file.seek(0, 2); file.tell()`), and
`file.content_type`. -/
structure UploadFile where
  filename : String
  size : Nat
  content_type : String
  deriving Repr, DecidableEq

/-- The characters after the last '.' of the name, or `none` when the name
contains no '.'; implements `filename.rsplit('.', 1)[1]` guarded by
`'.' in filename`. -/
def afterLastDot : List Char → Option (List Char)
  | [] => none
  | c :: cs =>
    match afterLastDot cs with
    | some tail => some tail
    | none => if c = '.' then some cs else none

/-- Embedding of `file.filename.rsplit('.', 1)[1].lower() if '.' in
file.filename else 'jpg'`. -/
def file_ext (filename : String) : String :=
  match afterLastDot filename.data with
  | some tail => String.mk (tail.map Char.toLower)
  | none => "jpg"

/-- Python `str.startswith` on character lists. -/
def startsList : List Char → List Char → Bool
  | [], _ => true
  | _ :: _, [] => false
  | p :: ps, c :: cs => p == c && startsList ps cs

inductive ImgResult
  | ok (filename : String)
  | badRequest (msg : String)
  deriving Repr, DecidableEq

/-- Embedding of the POST branch of `admin_edit_image`.  `upload` is the
optional `image` part of the multipart body (`none` when absent), `files`
the image directory listing, `now` the timestamp used in the new name.
After the validations the handler deletes the row's previous image file,
saves the new file as `material_<id>_<now>.<ext>`, and runs
`UPDATE material_requests SET images = ? WHERE id = ?` without checking
`cursor.rowcount`. -/
def admin_edit_image_post (db : DB) (files : List String) (request_id : Nat)
    (upload : Option UploadFile) (now : String) :
    DB × List String × ImgResult :=
  match upload with
  | none => (db, files, ImgResult.badRequest "이미지 파일이 없습니다.")
  | some file =>
    if file.filename = "" then
      (db, files, ImgResult.badRequest "파일이 선택되지 않았습니다.")
    else if file.size > 5 * 1024 * 1024 then
      (db, files, ImgResult.badRequest "파일 크기는 5MB 이하여야 합니다.")
    else if !startsList "image/".data file.content_type.data then
      (db, files, ImgResult.badRequest "이미지 파일만 업로드 가능합니다.")
    else
      let files1 := removeImageFile files
        (truthy ((db.rows.find? (fun r => r.id == request_id)).bind Row.images))
      let filename :=
        "material_" ++ toString request_id ++ "_" ++ now ++ "." ++
          file_ext file.filename
      ({ db with rows := db.rows.map fun r =>
          if r.id == request_id then { r with images := some filename }
          else r },
       files1 ++ [filename],
       ImgResult.ok filename)

/-! ### `requests_page` query (lines 2530-2566) and `api_stats` -/

/-- ASCII lowercasing, as SQLite's case-insensitive LIKE applies it. -/
def asciiLower (c : Char) : Char :=
  if 'A' ≤ c ∧ c ≤ 'Z' then Char.ofNat (c.toNat + 32) else c

/-- Does the second character list contain the first as a contiguous run? -/
def listContainsSub (pat : List Char) : List Char → Bool
  | [] => startsList pat []
  | c :: cs => startsList pat (c :: cs) || listContainsSub pat cs

/-- SQLite `column LIKE '%' || q || '%'` (ASCII-case-insensitive
substring test). -/
def likeContains (field q : String) : Bool :=
  listContainsSub (q.data.map asciiLower) (field.data.map asciiLower)

/-- Row ordering used by `ORDER BY id DESC`. -/
def idGe (a b : Row) : Prop := b.id ≤ a.id

instance : DecidableRel idGe := fun a b => Nat.decLe b.id a.id

instance : IsTotal Row idGe := ⟨fun a b => Nat.le_total b.id a.id⟩

instance : IsTrans Row idGe := ⟨fun _ _ _ h1 h2 => Nat.le_trans h2 h1⟩

/-- Embedding of the row query built by `requests_page`: optional equality
filter on `status` (only when the filter is not `'all'`), optional LIKE
search over `item_name`, `specifications`, `reason` (only when the search
text is non-empty), then `ORDER BY id DESC`. -/
def requests_page_list (rows : List Row) (status_filter search_query : String) :
    List Row :=
  let r1 := if status_filter != "all"
    then rows.filter (fun r => r.status == status_filter) else rows
  let r2 := if search_query != ""
    then r1.filter (fun r =>
      likeContains r.item_name search_query ||
      likeContains r.specifications search_query ||
      likeContains r.reason search_query)
    else r1
  List.insertionSort idGe r2

/-- Embedding of `SELECT status, COUNT(*) FROM material_requests GROUP BY
status` followed by `dict(cursor.fetchall())`, as run by both
`requests_page` and `api_stats`. -/
def status_counts (rows : List Row) : List (String × Nat) :=
  ((rows.map Row.status).dedup).map
    (fun s => (s, rows.countP (fun r => r.status == s)))

/-- Embedding of `SELECT COUNT(*) FROM material_requests` (`api_stats`,
line 3291). -/
def api_stats_total (rows : List Row) : Nat := rows.length

/-! ### Sequences of create/delete operations -/

/-- One user-level operation from the claims' "sequence of create/delete
operations". -/
inductive Op
  | create (item_name : String) (quantity : Int)
  | delete (id : Nat)

/-- Run one operation through the corresponding handler (creates carry
empty optional fields and no image). -/
def runOp (usePostgres : Bool) (today now : String) (st : DB × List String) :
    Op → DB × List String
  | Op.create item_name quantity =>
    ((add_page st.1 item_name quantity "" "" "normal" "" none today now).1, st.2)
  | Op.delete i =>
    let res := admin_delete_request usePostgres st.1 st.2 i
    (res.1, res.2.1)

/-- Run a whole sequence of operations from a starting state. -/
def runOps (usePostgres : Bool) (today now : String) (st : DB × List String)
    (ops : List Op) : DB × List String :=
  ops.foldl (runOp usePostgres today now) st

/-- A concrete row used in witnesses and counterexamples. -/
def mkRow (i : Nat) (name : String) : Row :=
  { id := i, item_name := name, quantity := 1, specifications := "",
    reason := "", urgency := "normal", request_date := "2025-01-06",
    vendor := "", status := "pending", images := none,
    created_at := "2025-01-06 09:00:00" }

/-! ### Helper lemmas -/

theorem qmarkSub_eq_flatMap (l : List Char) :
    qmarkSub l = l.flatMap (fun c => if c = '?' then ['%', 's'] else [c]) := by
  induction l with
  | nil => rfl
  | cons c cs ih => by_cases h : c = '?' <;> simp [qmarkSub, h, ih]

theorem renumberFrom_map_id (k : Nat) (l : List Row) :
    (renumberFrom k l).map Row.id = List.range' k l.length := by
  induction l generalizing k with
  | nil => rfl
  | cons r rs ih => simp [renumberFrom, List.range', ih]

theorem renumberFrom_map_stripId (k : Nat) (l : List Row) :
    (renumberFrom k l).map stripId = l.map stripId := by
  induction l generalizing k with
  | nil => rfl
  | cons r rs ih => simp [renumberFrom, stripId, ih]

theorem renumberFrom_length (k : Nat) (l : List Row) :
    (renumberFrom k l).length = l.length := by
  induction l generalizing k with
  | nil => rfl
  | cons r rs ih => simp [renumberFrom, ih]

theorem le_maxId_of_mem {r : Row} {l : List Row} (h : r ∈ l) :
    r.id ≤ maxId l := by
  induction l with
  | nil => cases h
  | cons a as ih =>
    rcases List.mem_cons.1 h with rfl | h2
    · exact Nat.le_max_left _ _
    · exact Nat.le_trans (ih h2) (Nat.le_max_right _ _)

theorem map_update_eq_self (l : List Row) (rid : Nat) (f : Row → Row)
    (h : ∀ r ∈ l, r.id ≠ rid) :
    (l.map fun r => if r.id == rid then f r else r) = l := by
  induction l with
  | nil => rfl
  | cons a as ih =>
    have ha : a.id ≠ rid := h a (List.mem_cons_self a as)
    simp only [List.map_cons, List.cons.injEq]
    exact ⟨by simp [ha], ih fun r hr => h r (List.mem_cons_of_mem a hr)⟩

theorem countP_id_eq_zero_iff (l : List Row) (rid : Nat) :
    l.countP (fun r => r.id == rid) = 0 ↔ ∀ r ∈ l, r.id ≠ rid := by
  rw [List.countP_eq_zero]
  simp

theorem sum_map_addNat {α : Type} (f g : α → Nat) (l : List α) :
    (l.map fun x => f x + g x).sum = (l.map f).sum + (l.map g).sum := by
  induction l with
  | nil => rfl
  | cons a as ih => simp [List.map_cons, List.sum_cons, ih]; omega

theorem sum_map_ite_eq_countP (a : String) (keys : List String) :
    (keys.map fun s => if a == s then 1 else 0).sum
      = keys.countP (fun s => a == s) := by
  induction keys with
  | nil => rfl
  | cons k ks ih =>
    rw [List.map_cons, List.sum_cons, List.countP_cons, ih]
    cases h : (a == k) <;> simp [h, Nat.add_comm]

theorem countP_beq_eq_one (a : String) (keys : List String) (hnd : keys.Nodup)
    (ha : a ∈ keys) : keys.countP (fun s => a == s) = 1 := by
  induction keys with
  | nil => cases ha
  | cons k ks ih =>
    rcases List.nodup_cons.1 hnd with ⟨hk, hks⟩
    rcases List.mem_cons.1 ha with rfl | h2
    · have h0 : ks.countP (fun s => a == s) = 0 := by
        rw [List.countP_eq_zero]
        intro s hs hbeq
        exact hk (by simpa using (beq_iff_eq.1 hbeq) ▸ hs)
      simp [List.countP_cons, h0]
    · have hne : (a == k) = false := by
        apply beq_eq_false_iff_ne.2
        intro heq
        exact hk (heq ▸ h2)
      simp [List.countP_cons, hne, ih hks h2]

theorem sum_countP_keys (keys : List String) (l : List Row) (hnd : keys.Nodup)
    (hc : ∀ r ∈ l, r.status ∈ keys) :
    (keys.map fun s => l.countP (fun r => r.status == s)).sum = l.length := by
  induction l with
  | nil => simp
  | cons x xs ih =>
    have hx := hc x (List.mem_cons_self x xs)
    have hxs : ∀ r ∈ xs, r.status ∈ keys :=
      fun r hr => hc r (List.mem_cons_of_mem x hr)
    simp only [List.countP_cons, List.length_cons]
    rw [sum_map_addNat, sum_map_ite_eq_countP, countP_beq_eq_one _ _ hnd hx,
      ih hxs]

theorem sum_status_counts (rows : List Row) :
    ((status_counts rows).map Prod.snd).sum = rows.length := by
  have h1 : (status_counts rows).map Prod.snd
      = ((rows.map Row.status).dedup).map
          (fun s => rows.countP (fun r => r.status == s)) := by
    simp [status_counts, List.map_map]
  rw [h1]
  exact sum_countP_keys _ _ (List.nodup_dedup _)
    (fun r hr => List.mem_dedup.2 (List.mem_map_of_mem Row.status hr))

theorem reindex_false_dense (db : DB) :
    (reindex_material_request_ids false db).rows.map Row.id
      = List.range' 1 (reindex_material_request_ids false db).rows.length := by
  unfold reindex_material_request_ids
  by_cases he : (List.insertionSort idLe db.rows).isEmpty <;>
    simp [he, renumberFrom_map_id, renumberFrom_length]

/-! ### Claim theorems -/

/-- Claim C1 (amended: the dense-id invariant holds when the SQLite
backend is active, i.e. `USE_POSTGRES` is false): for every database state
and every delete that succeeds, immediately after the delete completes the
ids of the remaining rows are exactly 1..N in order, where N is the number
of remaining rows. -/
theorem dense_ids_after_sqlite_delete (db : DB) (files : List String)
    (request_id : Nat) (h : ∃ r ∈ db.rows, r.id = request_id) :
    (admin_delete_request false db files request_id).2.2 = DeleteResult.ok ∧
    (admin_delete_request false db files request_id).1.rows.map Row.id
      = List.range' 1
          (admin_delete_request false db files request_id).1.rows.length := by
  have hcount : ¬ db.rows.countP (fun r => r.id == request_id) = 0 := by
    rw [countP_id_eq_zero_iff]
    push_neg
    obtain ⟨r, hr, hid⟩ := h
    exact ⟨r, hr, hid⟩
  have heq : admin_delete_request false db files request_id
      = (reindex_material_request_ids false
           { rows := db.rows.filter (fun r => r.id != request_id),
             seq := db.seq },
         removeImageFile files
           (truthy ((db.rows.find? (fun r => r.id == request_id)).bind
             Row.images)),
         DeleteResult.ok) := by
    unfold admin_delete_request
    rw [if_neg hcount]
    rfl
  rw [heq]
  exact ⟨rfl, reindex_false_dense _⟩

/-- Witness for C1: deleting id 1 from a two-row table leaves exactly the
ids 1..1. -/
theorem dense_ids_after_sqlite_delete_witness :
    (∃ r ∈ (DB.mk [mkRow 1 "안전모", mkRow 2 "작업장갑"] 2).rows, r.id = 1) ∧
    (admin_delete_request false ⟨[mkRow 1 "안전모", mkRow 2 "작업장갑"], 2⟩ []
      1).2.2 = DeleteResult.ok ∧
    (admin_delete_request false ⟨[mkRow 1 "안전모", mkRow 2 "작업장갑"], 2⟩ []
      1).1.rows.map Row.id
      = List.range' 1
          (admin_delete_request false
            ⟨[mkRow 1 "안전모", mkRow 2 "작업장갑"], 2⟩ [] 1).1.rows.length :=
  ⟨by decide, dense_ids_after_sqlite_delete _ _ _ (by decide)⟩

/-- Counterexample to C1 as stated: with the PostgreSQL backend active a
sequence of three creates and one delete leaves ids 1 and 3 over 2 rows,
so the id set is not 1..N. -/
theorem pg_dense_invariant_counterexample :
    ((runOps true "2025-01-06" "ts" (⟨[], 0⟩, [])
        [Op.create "볼트" 1, Op.create "너트" 1, Op.create "와셔" 1,
         Op.delete 2]).1.rows.length = 2) ∧
    ((runOps true "2025-01-06" "ts" (⟨[], 0⟩, [])
        [Op.create "볼트" 1, Op.create "너트" 1, Op.create "와셔" 1,
         Op.delete 2]).1.rows.map Row.id = [1, 3]) ∧
    ([1, 3] : List Nat) ≠ List.range' 1 2 := by decide

/-- Claim C2 (amended: this is the behaviour on the SQLite backend; when
`USE_POSTGRES` is set the routine returns immediately leaving the table
unchanged): on SQLite the renumbering reads every remaining row ordered by
original id, reinserts them in that order with ids 1..N preserving every
non-id field, and resets the auto-increment counter to N (0 when no rows
remain, which the same equations cover). -/
theorem reindex_characterization :
    (∀ db : DB, reindex_material_request_ids true db = db) ∧
    (∀ db : DB,
      (List.insertionSort idLe db.rows).Perm db.rows ∧
      List.Sorted idLe (List.insertionSort idLe db.rows) ∧
      (reindex_material_request_ids false db).rows
        = renumberFrom 1 (List.insertionSort idLe db.rows) ∧
      (reindex_material_request_ids false db).rows.map stripId
        = (List.insertionSort idLe db.rows).map stripId ∧
      (reindex_material_request_ids false db).rows.map Row.id
        = List.range' 1 db.rows.length ∧
      (reindex_material_request_ids false db).seq = db.rows.length) := by
  refine ⟨fun db => rfl, fun db => ?_⟩
  have hperm := List.perm_insertionSort idLe db.rows
  have hlen : (List.insertionSort idLe db.rows).length = db.rows.length :=
    hperm.length_eq
  have hrows : (reindex_material_request_ids false db).rows
      = renumberFrom 1 (List.insertionSort idLe db.rows) := by
    unfold reindex_material_request_ids
    by_cases he : (List.insertionSort idLe db.rows).isEmpty
    · rw [List.isEmpty_iff] at he
      simp [he, renumberFrom]
    · simp [he]
  have hseq : (reindex_material_request_ids false db).seq = db.rows.length := by
    unfold reindex_material_request_ids
    by_cases he : (List.insertionSort idLe db.rows).isEmpty
    · rw [List.isEmpty_iff] at he
      simp [he, ← hlen]
    · simp [he, hlen]
  refine ⟨hperm, List.sorted_insertionSort idLe db.rows, hrows, ?_, ?_, hseq⟩
  · rw [hrows, renumberFrom_map_stripId]
  · rw [hrows, renumberFrom_map_id, hlen]

/-- Counterexample to C2 as stated: with the PostgreSQL backend active the
renumbering routine leaves a row with id 5 untouched instead of
reinserting it with id 1. -/
theorem reindex_pg_counterexample :
    (reindex_material_request_ids true ⟨[mkRow 5 "전선"], 5⟩).rows.map Row.id
      = [5] ∧
    ([5] : List Nat) ≠ List.range' 1 1 := by decide

/-- Claim C3: with a parameter list present, the adapter executes the query
with every '?' character textually replaced by '%s' and the parameters
passed through unchanged; with no parameter list the query is executed
as-is. -/
theorem pg_execute_replaces_placeholders :
    (∀ (query : String) (params : List String),
      pgCursorExecute query (some params)
        = (replaceEveryQmark query, some params)) ∧
    (∀ query : String,
      pgCursorExecute query (none : Option (List String)) = (query, none)) := by
  refine ⟨fun q ps => ?_, fun q => rfl⟩
  simp [pgCursorExecute, replaceEveryQmark, qmarkSub_eq_flatMap]

/-- Claim C4 (amended: for update_fields the success half additionally
requires that a row with the given id exists; otherwise the handler
answers NotFound): create and update_fields with quantity 0 or negative
fail with a validation error and leave the table unchanged, and with
quantity 1 and a non-empty item_name they succeed. -/
theorem quantity_validation (db : DB) (request_id : Nat)
    (item_name specifications reason urgency vendor today now : String)
    (quantity : Int) (image_filename : Option String) :
    (quantity ≤ 0 →
      (add_page db item_name quantity specifications reason urgency vendor
        image_filename today now).1 = db ∧
      ∃ m, (add_page db item_name quantity specifications reason urgency
        vendor image_filename today now).2 = AddResult.formError m) ∧
    (quantity ≤ 0 →
      (admin_edit_material_info db request_id item_name quantity
        specifications reason).1 = db ∧
      ∃ m, (admin_edit_material_info db request_id item_name quantity
        specifications reason).2 = EditResult.badRequest m) ∧
    (item_name ≠ "" →
      (add_page db item_name 1 specifications reason urgency vendor
        image_filename today now).2 = AddResult.redirectRequests) ∧
    (item_name ≠ "" → (∃ r ∈ db.rows, r.id = request_id) →
      (admin_edit_material_info db request_id item_name 1 specifications
        reason).2 = EditResult.ok) := by
  refine ⟨fun hq => ?_, fun hq => ?_, fun hn => ?_, fun hn hex => ?_⟩
  · unfold add_page
    by_cases hn : item_name = ""
    · rw [if_pos hn]
      exact ⟨rfl, _, rfl⟩
    · rw [if_neg hn, if_pos hq]
      exact ⟨rfl, _, rfl⟩
  · unfold admin_edit_material_info
    by_cases hn : item_name = ""
    · rw [if_pos hn]
      exact ⟨rfl, _, rfl⟩
    · rw [if_neg hn, if_pos (by omega : quantity < 1)]
      exact ⟨rfl, _, rfl⟩
  · unfold add_page
    rw [if_neg hn, if_neg (by decide : ¬ (1 : Int) ≤ 0)]
  · have hcount : ¬ db.rows.countP (fun r => r.id == request_id) = 0 := by
      rw [countP_id_eq_zero_iff]
      push_neg
      obtain ⟨r, hr, hid⟩ := hex
      exact ⟨r, hr, hid⟩
    unfold admin_edit_material_info
    rw [if_neg hn, if_neg (by decide : ¬ (1 : Int) < 1), if_neg hcount]

/-- Witness for C4: quantity 0 is rejected with the form unchanged,
quantity 1 with a non-empty name succeeds for both create and
update_fields. -/
theorem quantity_validation_witness :
    ((add_page ⟨[], 0⟩ "볼트" 0 "" "" "normal" "" none "2025-01-06" "ts").1
        = ⟨[], 0⟩ ∧
      ∃ m, (add_page ⟨[], 0⟩ "볼트" 0 "" "" "normal" "" none "2025-01-06"
        "ts").2 = AddResult.formError m) ∧
    (add_page ⟨[], 0⟩ "볼트" 1 "" "" "normal" "" none "2025-01-06" "ts").2
      = AddResult.redirectRequests ∧
    (admin_edit_material_info ⟨[mkRow 1 "안전모"], 1⟩ 1 "볼트" 1 "" "").2
      = EditResult.ok :=
  ⟨(quantity_validation ⟨[], 0⟩ 1 "볼트" "" "" "normal" "" "2025-01-06" "ts" 0
      none).1 (by decide),
   (quantity_validation ⟨[], 0⟩ 1 "볼트" "" "" "normal" "" "2025-01-06" "ts" 0
      none).2.2.1 (by decide),
   (quantity_validation ⟨[mkRow 1 "안전모"], 1⟩ 1 "볼트" "" "" "normal" ""
      "2025-01-06" "ts" 0 none).2.2.2 (by decide) (by decide)⟩

/-- Counterexample to C4 as stated: update_fields with quantity 1 and a
non-empty name does not succeed when no row has the given id — it answers
NotFound and changes nothing. -/
theorem update_fields_missing_id_counterexample :
    admin_edit_material_info ⟨[], 0⟩ 1 "Bolt" 1 "" ""
      = (⟨[], 0⟩, EditResult.notFound "요청을 찾을 수 없습니다.") := by decide

/-- Claim C5: update_status overwrites status and vendor unconditionally
(any values, no transition validation, all other fields and rows kept),
and fails with NotFound exactly when no row has the id. -/
theorem update_status_unconditional (db : DB) (request_id : Nat)
    (vendor status : String) :
    admin_update_request db request_id vendor status =
      if ∃ r ∈ db.rows, r.id = request_id then
        ({ db with rows := db.rows.map fun r =>
            if r.id == request_id then
              { r with vendor := vendor, status := status }
            else r },
         UpdateResult.ok)
      else (db, UpdateResult.notFound "요청을 찾을 수 없습니다.") := by
  unfold admin_update_request
  by_cases h : ∃ r ∈ db.rows, r.id = request_id
  · have hc : ¬ db.rows.countP (fun r => r.id == request_id) = 0 := by
      rw [countP_id_eq_zero_iff]
      push_neg
      obtain ⟨r, hr, hid⟩ := h
      exact ⟨r, hr, hid⟩
    rw [if_neg hc, if_pos h]
  · have hc : db.rows.countP (fun r => r.id == request_id) = 0 := by
      rw [countP_id_eq_zero_iff]
      intro r hr hid
      exact h ⟨r, hr, hid⟩
    rw [if_pos hc, if_neg h]

/-- Claim C6: copying an existing row X appends a new row with a fresh id
different from X, copying item_name, quantity, specifications, reason,
urgency and the images filename, with status pending, empty vendor and
request_date today; the image directory is untouched (the file is not
duplicated). -/
theorem copy_independence (db : DB) (files : List String) (request_id : Nat)
    (today now : String) (src : Row)
    (h : db.rows.find? (fun r => r.id == request_id) = some src) :
    admin_copy_request db files request_id today now =
      ({ rows := db.rows ++ [copiedRow db src today now], seq := nextId db },
       files, CopyResult.ok (nextId db)) ∧
    nextId db ≠ request_id := by
  constructor
  · unfold admin_copy_request
    rw [h]
    rfl
  · have hmem : src ∈ db.rows := List.mem_of_find?_eq_some h
    have hid : src.id = request_id := by
      have := List.find?_some h
      simpa using this
    have hle : src.id ≤ maxId db.rows := le_maxId_of_mem hmem
    have hmax : maxId db.rows ≤ max db.seq (maxId db.rows) :=
      Nat.le_max_right _ _
    unfold nextId
    omega

/-- Witness for C6: copying the only row of a one-row table yields a new
id different from the source id. -/
theorem copy_independence_witness :
    ([mkRow 1 "볼트"].find? (fun r => r.id == 1) = some (mkRow 1 "볼트")) ∧
    nextId ⟨[mkRow 1 "볼트"], 1⟩ ≠ 1 :=
  ⟨by decide,
   (copy_independence ⟨[mkRow 1 "볼트"], 1⟩ ["p.png"] 1 "2025-01-07" "ts2"
     (mkRow 1 "볼트") (by decide)).2⟩

/-- Claim C7: in every database state, the sum of the per-status counts
equals the number of rows returned by the list query with no status filter
and no search text (and also the COUNT(*) total used by api_stats). -/
theorem status_count_consistency (db : DB) :
    ((status_counts db.rows).map Prod.snd).sum
      = (requests_page_list db.rows "all" "").length ∧
    ((status_counts db.rows).map Prod.snd).sum = api_stats_total db.rows := by
  have hlist : requests_page_list db.rows "all" ""
      = List.insertionSort idGe db.rows := rfl
  have hlen : (List.insertionSort idGe db.rows).length = db.rows.length :=
    (List.perm_insertionSort idGe db.rows).length_eq
  refine ⟨?_, ?_⟩
  · rw [hlist, hlen, sum_status_counts]
  · rw [sum_status_counts]
    rfl

/-- Claim C8 (amended: acceptance additionally requires a non-empty
filename — a part with an empty filename is rejected with 400 even when
its size and MIME type are valid): an upload larger than 5 MiB, or whose
MIME type does not start with image/, is answered with 400 and leaves both
the table (hence the record's images column) and the image directory
unchanged; an upload with a non-empty filename, size at most 5 MiB and an
image/* MIME type is accepted. -/
theorem image_upload_validation (db : DB) (files : List String)
    (request_id : Nat) (f : UploadFile) (now : String) :
    (f.size > 5 * 1024 * 1024 →
      ∃ m, admin_edit_image_post db files request_id (some f) now
        = (db, files, ImgResult.badRequest m)) ∧
    (startsList "image/".data f.content_type.data = false →
      ∃ m, admin_edit_image_post db files request_id (some f) now
        = (db, files, ImgResult.badRequest m)) ∧
    (f.filename ≠ "" → f.size ≤ 5 * 1024 * 1024 →
      startsList "image/".data f.content_type.data = true →
      ∃ fn, (admin_edit_image_post db files request_id (some f) now).2.2
        = ImgResult.ok fn) := by
  refine ⟨fun hsz => ?_, fun hct => ?_, fun h1 h2 h3 => ?_⟩
  · by_cases hfn : f.filename = ""
    · refine ⟨"파일이 선택되지 않았습니다.", ?_⟩
      simp only [admin_edit_image_post]
      rw [if_pos hfn]
    · refine ⟨"파일 크기는 5MB 이하여야 합니다.", ?_⟩
      simp only [admin_edit_image_post]
      rw [if_neg hfn, if_pos hsz]
  · by_cases hfn : f.filename = ""
    · refine ⟨"파일이 선택되지 않았습니다.", ?_⟩
      simp only [admin_edit_image_post]
      rw [if_pos hfn]
    · by_cases hsz : f.size > 5 * 1024 * 1024
      · refine ⟨"파일 크기는 5MB 이하여야 합니다.", ?_⟩
        simp only [admin_edit_image_post]
        rw [if_neg hfn, if_pos hsz]
      · refine ⟨"이미지 파일만 업로드 가능합니다.", ?_⟩
        simp only [admin_edit_image_post]
        rw [if_neg hfn, if_neg hsz]
        simp [hct]
  · simp only [admin_edit_image_post]
    rw [if_neg h1, if_neg (Nat.not_lt.2 h2)]
    simp only [h3, Bool.not_true, Bool.false_eq_true, if_false]
    exact ⟨_, rfl⟩

/-- Witness for C8: an oversize upload and a PDF upload are rejected, a
small PNG upload is accepted. -/
theorem image_upload_validation_witness :
    (∃ m, admin_edit_image_post ⟨[mkRow 1 "안전모"], 1⟩ [] 1
        (some ⟨"big.png", 6 * 1024 * 1024, "image/png"⟩) "ts"
      = (⟨[mkRow 1 "안전모"], 1⟩, [], ImgResult.badRequest m)) ∧
    (∃ m, admin_edit_image_post ⟨[mkRow 1 "안전모"], 1⟩ [] 1
        (some ⟨"doc.pdf", 3, "application/pdf"⟩) "ts"
      = (⟨[mkRow 1 "안전모"], 1⟩, [], ImgResult.badRequest m)) ∧
    (∃ fn, (admin_edit_image_post ⟨[mkRow 1 "안전모"], 1⟩ [] 1
        (some ⟨"ok.png", 3, "image/png"⟩) "ts").2.2 = ImgResult.ok fn) :=
  ⟨(image_upload_validation ⟨[mkRow 1 "안전모"], 1⟩ [] 1
      ⟨"big.png", 6 * 1024 * 1024, "image/png"⟩ "ts").1 (by decide),
   (image_upload_validation ⟨[mkRow 1 "안전모"], 1⟩ [] 1
      ⟨"doc.pdf", 3, "application/pdf"⟩ "ts").2.1 (by decide),
   (image_upload_validation ⟨[mkRow 1 "안전모"], 1⟩ [] 1
      ⟨"ok.png", 3, "image/png"⟩ "ts").2.2 (by decide) (by decide)
      (by decide)⟩

/-- Counterexample to C8 as stated: a multipart part with an empty
filename, size 0 and MIME image/png is not accepted — it is rejected with
400. -/
theorem empty_filename_upload_counterexample :
    admin_edit_image_post ⟨[mkRow 1 "볼트"], 1⟩ [] 1 (some ⟨"", 0, "image/png"⟩)
      "ts" = (⟨[mkRow 1 "볼트"], 1⟩, [],
        ImgResult.badRequest "파일이 선택되지 않았습니다.") := by decide

/-- Claim C9: with the PostgreSQL backend active, the renumbering routine
returns immediately without touching the table, a successful delete only
filters out the matching row, and a concrete run leaves ids 1 and 3 over
two rows (a persistent gap). -/
theorem postgres_delete_skips_renumbering :
    (∀ db : DB, reindex_material_request_ids true db = db) ∧
    (∀ (db : DB) (files : List String) (request_id : Nat),
      (admin_delete_request true db files request_id).1.rows =
        if ∃ r ∈ db.rows, r.id = request_id
        then db.rows.filter (fun r => r.id != request_id)
        else db.rows) ∧
    ((admin_delete_request true
        ⟨[mkRow 1 "안전모", mkRow 2 "작업장갑", mkRow 3 "전선"], 3⟩ []
        2).1.rows.map Row.id = [1, 3] ∧
      ([1, 3] : List Nat) ≠ List.range' 1 2) := by
  refine ⟨fun db => rfl, fun db files rid => ?_, by decide⟩
  by_cases h : ∃ r ∈ db.rows, r.id = rid
  · have hc : ¬ db.rows.countP (fun r => r.id == rid) = 0 := by
      rw [countP_id_eq_zero_iff]
      push_neg
      obtain ⟨r, hr, hid⟩ := h
      exact ⟨r, hr, hid⟩
    unfold admin_delete_request
    rw [if_neg hc, if_pos h]
    rfl
  · have hc : db.rows.countP (fun r => r.id == rid) = 0 := by
      rw [countP_id_eq_zero_iff]
      intro r hr hid
      exact h ⟨r, hr, hid⟩
    unfold admin_delete_request
    rw [if_pos hc, if_neg h]

/-- Claim C10: when no row has the given id, a valid upload still answers
success with the new filename, the file is written into the image
directory, and the table is left unchanged (the UPDATE matches zero rows);
no NotFound is ever produced. -/
theorem upload_nonexistent_id_succeeds (db : DB) (files : List String)
    (request_id : Nat) (f : UploadFile) (now : String)
    (h0 : ∀ r ∈ db.rows, r.id ≠ request_id)
    (h1 : f.filename ≠ "") (h2 : f.size ≤ 5 * 1024 * 1024)
    (h3 : startsList "image/".data f.content_type.data = true) :
    admin_edit_image_post db files request_id (some f) now =
      (db,
       files ++ ["material_" ++ toString request_id ++ "_" ++ now ++ "." ++
         file_ext f.filename],
       ImgResult.ok ("material_" ++ toString request_id ++ "_" ++ now ++ "."
         ++ file_ext f.filename)) := by
  have hfind : db.rows.find? (fun r => r.id == request_id) = none := by
    rw [List.find?_eq_none]
    intro r hr hbeq
    exact h0 r hr (by simpa using hbeq)
  simp only [admin_edit_image_post]
  rw [if_neg h1, if_neg (Nat.not_lt.2 h2)]
  simp only [h3, Bool.not_true, Bool.false_eq_true, if_false]
  rw [hfind]
  simp only [Option.none_bind, truthy, removeImageFile]
  rw [map_update_eq_self db.rows request_id _ h0]

/-- Witness for C10: uploading a small PNG for id 7 against an empty table
succeeds with the generated filename and writes the file. -/
theorem upload_nonexistent_id_witness :
    admin_edit_image_post ⟨[], 0⟩ [] 7 (some ⟨"x.PNG", 3, "image/png"⟩)
      "20250101" =
      ((⟨[], 0⟩ : DB),
       [] ++ ["material_" ++ toString 7 ++ "_" ++ "20250101" ++ "." ++
         file_ext "x.PNG"],
       ImgResult.ok ("material_" ++ toString 7 ++ "_" ++ "20250101" ++ "."
         ++ file_ext "x.PNG")) :=
  upload_nonexistent_id_succeeds ⟨[], 0⟩ [] 7 ⟨"x.PNG", 3, "image/png"⟩
    "20250101" (by decide) (by decide) (by decide) (by decide)

end HPNT
